import Mathlib

/-!
# Verification of the CSR arbitrage decision pipeline

Shallow embedding of the price-alignment solver
(`src/packages/shared/alignmentSolver.ts`), the strategy evaluator's
per-tick cost model (`src/services/strategy/src/strategyEngine.ts`) and
the execution engine (`src/services/execution/src/executionEngine.ts`).

Modelling conventions:
* JS `number` is modelled by `ℚ`.  Division uses Lean's totalized
  rational division (`q / 0 = 0`); every division performed by the
  embedded code on the paths the theorems speak about has a nonzero
  denominator, with one deliberate exception: the deviation formula of
  `comparePrices`, whose behaviour at `cexPrice = 0` is exactly what is
  at stake, is modelled with an explicit IEEE-754-style value type
  `JVal` carrying `+∞`, `-∞` and `NaN`.
* `Math.random()` jitter in the paper fill is an explicit parameter.
* Format strings carrying numeric data are modelled by inductive reason
  tags that carry the same data.
-/

namespace CsrArb

/-! ## Alignment solver: band classification -/

/-- `BandStatus` from `alignmentTypes.ts`. -/
inductive Band
  | neutral
  | soft
  | hard
deriving DecidableEq, Repr

/-- `AlignmentBands` from `alignmentTypes.ts`. -/
structure AlignmentBands where
  neutralPercent : ℚ
  softPercent : ℚ
  hardPercent : ℚ
  alignmentMargin : ℚ
deriving DecidableEq, Repr

/-- `AlignmentConfig` from `alignmentTypes.ts` (the `mode` field is not
used by the solver functions and is omitted). -/
structure AlignmentConfig where
  bands : AlignmentBands
  maxTradeSizeUsdt : ℚ
  cooldownSeconds : ℚ
  minBenefitBps : ℚ
deriving DecidableEq, Repr

/-- `classifyBand` from `alignmentSolver.ts`: compares
`Math.abs(deviationPercent)` against the neutral then the soft
threshold with `<=`; anything beyond is hard. -/
def classifyBand (deviationPercent : ℚ) (config : AlignmentConfig) : Band :=
  if |deviationPercent| ≤ config.bands.neutralPercent then Band.neutral
  else if |deviationPercent| ≤ config.bands.softPercent then Band.soft
  else Band.hard

/-! ## IEEE-754-style values for the unguarded division in `comparePrices` -/

/-- A JS `number` outcome: a finite rational or one of the special
values produced by the float operations the source performs. -/
inductive JVal
  | fin (q : ℚ)
  | posInf
  | negInf
  | nan
deriving DecidableEq, Repr

/-- JS division `a / b` of finite doubles: finite quotient when `b ≠ 0`,
`±Infinity` for `a ≠ 0, b = 0` (sign of `a`), `NaN` for `0 / 0`. -/
def jsDiv (a b : ℚ) : JVal :=
  if b ≠ 0 then JVal.fin (a / b)
  else if 0 < a then JVal.posInf
  else if a < 0 then JVal.negInf
  else JVal.nan

/-- JS multiplication by the positive constant `100`. -/
def jsMul100 : JVal → JVal
  | JVal.fin q => JVal.fin (q * 100)
  | JVal.posInf => JVal.posInf
  | JVal.negInf => JVal.negInf
  | JVal.nan => JVal.nan

/-- JS `Math.abs` on a possibly non-finite value. -/
def jabs : JVal → JVal
  | JVal.fin q => JVal.fin |q|
  | JVal.posInf => JVal.posInf
  | JVal.negInf => JVal.posInf
  | JVal.nan => JVal.nan

/-- JS comparison `x <= c` for a finite `c`: `false` whenever `x` is
`NaN` or `+Infinity`, `true` for `-Infinity`. -/
def jleB : JVal → ℚ → Bool
  | JVal.fin q, c => decide (q ≤ c)
  | JVal.posInf, _ => false
  | JVal.negInf, _ => true
  | JVal.nan, _ => false

/-- JS unary negation on the modelled value class. -/
def jneg : JVal → JVal
  | JVal.fin q => JVal.fin (-q)
  | JVal.posInf => JVal.negInf
  | JVal.negInf => JVal.posInf
  | JVal.nan => JVal.nan

/-- JS addition: `NaN` propagates, opposite infinities give `NaN`,
an infinity absorbs finite values. -/
def jadd : JVal → JVal → JVal
  | JVal.nan, _ => JVal.nan
  | _, JVal.nan => JVal.nan
  | JVal.posInf, JVal.negInf => JVal.nan
  | JVal.negInf, JVal.posInf => JVal.nan
  | JVal.posInf, _ => JVal.posInf
  | JVal.negInf, _ => JVal.negInf
  | JVal.fin _, JVal.posInf => JVal.posInf
  | JVal.fin _, JVal.negInf => JVal.negInf
  | JVal.fin a, JVal.fin b => JVal.fin (a + b)

/-- JS subtraction `x - y = x + (-y)`. -/
def jsub (x y : JVal) : JVal := jadd x (jneg y)

/-- JS multiplication: `NaN` propagates, `±Infinity * 0 = NaN`,
otherwise infinities follow the sign rules. -/
def jmul : JVal → JVal → JVal
  | JVal.nan, _ => JVal.nan
  | _, JVal.nan => JVal.nan
  | JVal.fin a, JVal.fin b => JVal.fin (a * b)
  | JVal.fin a, JVal.posInf =>
    if 0 < a then JVal.posInf else if a < 0 then JVal.negInf else JVal.nan
  | JVal.fin a, JVal.negInf =>
    if 0 < a then JVal.negInf else if a < 0 then JVal.posInf else JVal.nan
  | JVal.posInf, JVal.fin b =>
    if 0 < b then JVal.posInf else if b < 0 then JVal.negInf else JVal.nan
  | JVal.negInf, JVal.fin b =>
    if 0 < b then JVal.negInf else if b < 0 then JVal.posInf else JVal.nan
  | JVal.posInf, JVal.posInf => JVal.posInf
  | JVal.posInf, JVal.negInf => JVal.negInf
  | JVal.negInf, JVal.posInf => JVal.negInf
  | JVal.negInf, JVal.negInf => JVal.posInf

/-- JS division on the modelled value class (no signed zero: the only
zero is `+0`): finite/0 gives a signed infinity or `NaN` for `0/0`,
finite/∞ gives `0`, ∞/finite keeps the sign, ∞/∞ gives `NaN`. -/
def jdivV : JVal → JVal → JVal
  | JVal.nan, _ => JVal.nan
  | _, JVal.nan => JVal.nan
  | JVal.fin a, JVal.fin b =>
    if b ≠ 0 then JVal.fin (a / b)
    else if 0 < a then JVal.posInf
    else if a < 0 then JVal.negInf
    else JVal.nan
  | JVal.fin _, JVal.posInf => JVal.fin 0
  | JVal.fin _, JVal.negInf => JVal.fin 0
  | JVal.posInf, JVal.fin b => if 0 ≤ b then JVal.posInf else JVal.negInf
  | JVal.negInf, JVal.fin b => if 0 ≤ b then JVal.negInf else JVal.posInf
  | JVal.posInf, JVal.posInf => JVal.nan
  | JVal.posInf, JVal.negInf => JVal.nan
  | JVal.negInf, JVal.posInf => JVal.nan
  | JVal.negInf, JVal.negInf => JVal.nan

/-- JS `Math.min`: `NaN` if either argument is `NaN`. -/
def jminV : JVal → JVal → JVal
  | JVal.nan, _ => JVal.nan
  | _, JVal.nan => JVal.nan
  | JVal.negInf, _ => JVal.negInf
  | _, JVal.negInf => JVal.negInf
  | JVal.posInf, y => y
  | x, JVal.posInf => x
  | JVal.fin a, JVal.fin b => JVal.fin (min a b)

/-- JS `Math.max`: `NaN` if either argument is `NaN`. -/
def jmaxV : JVal → JVal → JVal
  | JVal.nan, _ => JVal.nan
  | _, JVal.nan => JVal.nan
  | JVal.posInf, _ => JVal.posInf
  | _, JVal.posInf => JVal.posInf
  | JVal.negInf, y => y
  | x, JVal.negInf => x
  | JVal.fin a, JVal.fin b => JVal.fin (max a b)

/-- JS `<`: any comparison with `NaN` is `false`. -/
def jltB : JVal → JVal → Bool
  | JVal.nan, _ => false
  | _, JVal.nan => false
  | JVal.fin a, JVal.fin b => decide (a < b)
  | JVal.posInf, _ => false
  | JVal.fin _, JVal.posInf => true
  | JVal.fin _, JVal.negInf => false
  | JVal.negInf, JVal.negInf => false
  | JVal.negInf, JVal.fin _ => true
  | JVal.negInf, JVal.posInf => true

/-- `classifyBand` applied to a possibly non-finite deviation, exactly
as the source's `<=` chain behaves on JS special values. -/
def classifyBandJ (d : JVal) (config : AlignmentConfig) : Band :=
  if jleB (jabs d) config.bands.neutralPercent then Band.neutral
  else if jleB (jabs d) config.bands.softPercent then Band.soft
  else Band.hard

/-- `PriceComparison` as produced by `comparePrices` — the deviation
fields keep the full JS value domain because the division by
`cexPrice` is not guarded in the source. -/
structure PriceComparisonJ where
  cexPrice : ℚ
  cexSource : String
  dexPrice : ℚ
  dexSizeUsdt : ℚ
  deviationPercent : JVal
  deviationBps : JVal
  bandStatus : Band
deriving DecidableEq, Repr

/-- `comparePrices` from `alignmentSolver.ts`:
`deviationPercent = ((dexPrice - cexPrice) / cexPrice) * 100`,
`deviationBps = deviationPercent * 100`, band from `classifyBand`.
There is no guard on `cexPrice = 0` in the source. -/
def comparePrices (cexPrice : ℚ) (cexSource : String) (dexPrice : ℚ)
    (dexSizeUsdt : ℚ) (config : AlignmentConfig) : PriceComparisonJ :=
  let deviationPercent := jsMul100 (jsDiv (dexPrice - cexPrice) cexPrice)
  { cexPrice := cexPrice
    cexSource := cexSource
    dexPrice := dexPrice
    dexSizeUsdt := dexSizeUsdt
    deviationPercent := deviationPercent
    deviationBps := jsMul100 deviationPercent
    bandStatus := classifyBandJ deviationPercent config }

/-- Finite `PriceComparison` as consumed by `computeSuggestion` (its
callers pass comparisons built from finite prices). -/
structure PriceComparison where
  cexPrice : ℚ
  cexSource : String
  dexPrice : ℚ
  dexSizeUsdt : ℚ
  deviationPercent : ℚ
  deviationBps : ℚ
  bandStatus : Band
deriving DecidableEq, Repr

/-! ## Quote-ladder interpolation -/

/-- `QuoteLadderEntry` from `alignmentSolver.ts`. -/
structure QuoteLadderEntry where
  amountInUSDT : ℚ
  price_usdt_per_token : ℚ
  valid : Bool
deriving DecidableEq, Repr

/-- Stable insertion into a size-sorted list (models the stable JS
`Array.sort((a, b) => a.amountInUSDT - b.amountInUSDT)`, ES2019).  The
inserted element is the one that came EARLIER in the original list, so
it must be placed before entries with an equal `amountInUSDT` (`≤`, not
`<`) to preserve the source's stable order among equal sizes. -/
def insertBySize (x : QuoteLadderEntry) : List QuoteLadderEntry → List QuoteLadderEntry
  | [] => [x]
  | y :: ys =>
    if x.amountInUSDT ≤ y.amountInUSDT then x :: y :: ys
    else y :: insertBySize x ys

/-- Stable sort by `amountInUSDT` ascending. -/
def sortBySize : List QuoteLadderEntry → List QuoteLadderEntry
  | [] => []
  | x :: xs => insertBySize x (sortBySize xs)

/-- The source's bracketing test for an adjacent pair: the target lies
between the two execution prices, in either price direction. -/
def brackets (lower upper : QuoteLadderEntry) (targetPrice : ℚ) : Prop :=
  (lower.price_usdt_per_token ≤ targetPrice ∧ targetPrice ≤ upper.price_usdt_per_token) ∨
  (upper.price_usdt_per_token ≤ targetPrice ∧ targetPrice ≤ lower.price_usdt_per_token)

instance (lower upper : QuoteLadderEntry) (t : ℚ) : Decidable (brackets lower upper t) := by
  unfold brackets
  infer_instance

/-- Linear interpolation between a bracketing pair, clamped at `0`
(`Math.max(0, size)` in the source), computed under JS number
semantics: for a pair with equal execution prices the ratio is a
division by zero (`NaN` when the target equals that price, as it does
whenever such a pair brackets), and `NaN` propagates through the sum
and through `Math.max`. -/
def interpPair (lower upper : QuoteLadderEntry) (targetPrice : ℚ) : JVal :=
  jmaxV (JVal.fin 0)
    (jadd (JVal.fin lower.amountInUSDT)
      (jmul
        (jsDiv (targetPrice - lower.price_usdt_per_token)
          (upper.price_usdt_per_token - lower.price_usdt_per_token))
        (JVal.fin (upper.amountInUSDT - lower.amountInUSDT))))

/-- The loop of `interpolateQuoteLadder`: the first adjacent pair of the
(valid, size-sorted) ladder that brackets the target. -/
def firstBracket : List QuoteLadderEntry → ℚ → Option (QuoteLadderEntry × QuoteLadderEntry)
  | a :: b :: rest, t =>
    if brackets a b t then some (a, b) else firstBracket (b :: rest) t
  | _, _ => none

/-- `interpolateQuoteLadder` from `alignmentSolver.ts`: filter valid
entries, sort by size, interpolate at the first bracketing adjacent
pair, else return the endpoint whose price is nearest the target with
`achievable = false`; `(0, false)` for an empty valid ladder. -/
def interpolateQuoteLadder (ladder : List QuoteLadderEntry) (targetPrice : ℚ) :
    JVal × Bool :=
  let validLadder := sortBySize (ladder.filter (fun e => e.valid))
  match validLadder with
  | [] => (JVal.fin 0, false)
  | a :: rest =>
    match firstBracket (a :: rest) targetPrice with
    | some (lower, upper) => (interpPair lower upper targetPrice, true)
    | none =>
      let last := (a :: rest).getLast (List.cons_ne_nil a rest)
      if |a.price_usdt_per_token - targetPrice| < |last.price_usdt_per_token - targetPrice| then
        (JVal.fin a.amountInUSDT, false)
      else
        (JVal.fin last.amountInUSDT, false)

/-! ## Costs, benefit, cooldown, suggestion -/

/-- `AlignmentCosts` from `alignmentTypes.ts`.  The derived bps fields
carry the full JS value domain: the gas term is `Infinity` for a zero
trade size with nonzero gas, and `NaN` sizes propagate. -/
structure AlignmentCosts where
  dexFeeBps : ℚ
  gasUsdt : Option ℚ
  slippageBps : JVal
  totalCostBps : JVal
deriving DecidableEq, Repr

/-- `estimateCosts` from `alignmentSolver.ts`, under JS number
semantics.  The gas term follows the source's truthiness test
`gasUsdt ? (gasUsdt / tradeSizeUsdt) * 10000 : 0` (absent or zero gas
contributes `0` bps); with nonzero gas and `tradeSizeUsdt = 0` the
division yields `Infinity`, making the total cost infinite. -/
def estimateCosts (tradeSizeUsdt : JVal) (gasUsdt : Option ℚ) (lpFeeBps : ℚ := 30) :
    AlignmentCosts :=
  let slippageBps := jminV (jdivV tradeSizeUsdt (JVal.fin 100)) (JVal.fin 50)
  let gasCostBps :=
    match gasUsdt with
    | some g =>
      if g = 0 then JVal.fin 0
      else jmul (jdivV (JVal.fin g) tradeSizeUsdt) (JVal.fin 10000)
    | none => JVal.fin 0
  { dexFeeBps := lpFeeBps
    gasUsdt := gasUsdt
    slippageBps := slippageBps
    totalCostBps := jadd (jadd (JVal.fin lpFeeBps) gasCostBps) slippageBps }

/-- `AlignmentBenefit` from `alignmentTypes.ts`; the fields carry the
full JS value domain since the post-trade deviation can be non-finite. -/
structure AlignmentBenefit where
  gapReductionBps : JVal
  protectionValueBps : JVal
  netBenefitBps : JVal
deriving DecidableEq, Repr

/-- `estimateBenefit` from `alignmentSolver.ts`, under JS number
semantics. -/
def estimateBenefit (currentDeviationBps expectedPostDeviationBps : JVal)
    (costs : AlignmentCosts) : AlignmentBenefit :=
  let gapReductionBps := jsub (jabs currentDeviationBps) (jabs expectedPostDeviationBps)
  let protectionValueBps := jmul gapReductionBps (JVal.fin (1 / 2))
  { gapReductionBps := gapReductionBps
    protectionValueBps := protectionValueBps
    netBenefitBps := jsub (jadd gapReductionBps protectionValueBps) costs.totalCostBps }

/-- `AlignmentDirection` from `alignmentTypes.ts`. -/
inductive AlignDir
  | buy_dex
  | sell_dex
  | none
deriving DecidableEq, Repr

/-- `CooldownState` from `alignmentTypes.ts`. -/
structure CooldownState where
  lastTradeTs : Option ℚ
  lastDirection : AlignDir
  lastSizeUsdt : ℚ
  inCooldown : Bool
  cooldownRemaining : ℚ
deriving DecidableEq, Repr

/-- The source's `reason` format strings, as tags carrying the same
numeric data the strings interpolate. -/
inductive SuggestReason
  | empty
  | withinNeutralBand
  | inCooldown (remaining : ℚ)
  | uneconomical (netBenefitBps : JVal) (minBenefitBps : ℚ)
  | softOptional (direction : AlignDir) (sizeUsdt : JVal)
  | hardRecommended (direction : AlignDir) (sizeUsdt : JVal)
deriving DecidableEq, Repr

/-- `AlignmentSuggestion` from `alignmentTypes.ts`.  The size fields
carry the full JS value domain (a `NaN` interpolated size propagates
into them). -/
structure AlignmentSuggestion where
  shouldTrade : Bool
  direction : AlignDir
  suggestedSizeUsdt : JVal
  suggestedSizeTokens : JVal
  targetPrice : ℚ
  expectedPostTradePrice : ℚ
  costs : AlignmentCosts
  benefit : AlignmentBenefit
  reason : SuggestReason
  blocked : Bool
  blockReason : Option String
deriving DecidableEq, Repr

/-- First element of the valid ladder under the stable JS sort by
`|amountInUSDT - size|` — i.e. the earliest entry with minimal
distance.  With a `NaN` size every comparator value is `NaN`, which the
ES2019 sort treats as 0 (order unchanged), so the head is the first
valid entry — which is what the strict-improvement fold returns, since
`NaN < NaN` is false. -/
def closestEntry (l : List QuoteLadderEntry) (sizeUsdt : JVal) : Option QuoteLadderEntry :=
  l.foldl
    (fun acc e =>
      match acc with
      | Option.none => some e
      | some b =>
        if jltB (jabs (jsub (JVal.fin e.amountInUSDT) sizeUsdt))
            (jabs (jsub (JVal.fin b.amountInUSDT) sizeUsdt)) then
          some e
        else acc)
    Option.none

/-- `computeSuggestion` from `alignmentSolver.ts`: the decision tree in
source order — neutral band, cooldown, direction/target/size, economic
check, soft band, hard band. -/
def computeSuggestion (prices : PriceComparison) (quoteLadder : List QuoteLadderEntry)
    (gasUsdt : Option ℚ) (config : AlignmentConfig) (cooldown : CooldownState) :
    AlignmentSuggestion :=
  let noTrade : AlignmentSuggestion :=
    { shouldTrade := false
      direction := AlignDir.none
      suggestedSizeUsdt := JVal.fin 0
      suggestedSizeTokens := JVal.fin 0
      targetPrice := prices.cexPrice
      expectedPostTradePrice := prices.dexPrice
      costs := estimateCosts (JVal.fin 0) Option.none
      benefit := { gapReductionBps := JVal.fin 0, protectionValueBps := JVal.fin 0,
                   netBenefitBps := JVal.fin 0 }
      reason := SuggestReason.empty
      blocked := false
      blockReason := Option.none }
  if prices.bandStatus = Band.neutral then
    { noTrade with reason := SuggestReason.withinNeutralBand }
  else if cooldown.inCooldown then
    { noTrade with
        reason := SuggestReason.inCooldown cooldown.cooldownRemaining
        blocked := true
        blockReason := some "cooldown" }
  else
    let direction := if 0 < prices.deviationPercent then AlignDir.sell_dex else AlignDir.buy_dex
    let marginMultiplier :=
      if direction = AlignDir.buy_dex then 1 - config.bands.alignmentMargin / 100
      else 1 + config.bands.alignmentMargin / 100
    let targetPrice := prices.cexPrice * marginMultiplier
    let requiredSize := (interpolateQuoteLadder quoteLadder targetPrice).1
    let suggestedSizeUsdt := jminV requiredSize (JVal.fin config.maxTradeSizeUsdt)
    let expectedPostTradePrice :=
      match closestEntry (quoteLadder.filter (fun e => e.valid)) suggestedSizeUsdt with
      | Option.none => prices.dexPrice
      | some e =>
        -- JS `closestLadderEntry?.price_usdt_per_token || prices.dexPrice`
        if e.price_usdt_per_token = 0 then prices.dexPrice else e.price_usdt_per_token
    let suggestedSizeTokens := jdivV suggestedSizeUsdt (JVal.fin expectedPostTradePrice)
    let costs := estimateCosts suggestedSizeUsdt gasUsdt
    let expectedPostDeviationBps :=
      jmul (jsDiv (expectedPostTradePrice - prices.cexPrice) prices.cexPrice)
        (JVal.fin 10000)
    let benefit := estimateBenefit (JVal.fin prices.deviationBps) expectedPostDeviationBps costs
    if jltB benefit.netBenefitBps (JVal.fin config.minBenefitBps) then
      { noTrade with
          direction := direction
          suggestedSizeUsdt := suggestedSizeUsdt
          suggestedSizeTokens := suggestedSizeTokens
          targetPrice := targetPrice
          expectedPostTradePrice := expectedPostTradePrice
          costs := costs
          benefit := benefit
          reason := SuggestReason.uneconomical benefit.netBenefitBps config.minBenefitBps }
    else if prices.bandStatus = Band.soft then
      { shouldTrade := false
        direction := direction
        suggestedSizeUsdt := suggestedSizeUsdt
        suggestedSizeTokens := suggestedSizeTokens
        targetPrice := targetPrice
        expectedPostTradePrice := expectedPostTradePrice
        costs := costs
        benefit := benefit
        reason := SuggestReason.softOptional direction suggestedSizeUsdt
        blocked := false
        blockReason := Option.none }
    else
      { shouldTrade := true
        direction := direction
        suggestedSizeUsdt := suggestedSizeUsdt
        suggestedSizeTokens := suggestedSizeTokens
        targetPrice := targetPrice
        expectedPostTradePrice := expectedPostTradePrice
        costs := costs
        benefit := benefit
        reason := SuggestReason.hardRecommended direction suggestedSizeUsdt
        blocked := false
        blockReason := Option.none }

/-! ## Strategy engine: per-tick cost model (`strategyEngine.ts`) -/

/-- JS `Math.round`: round half toward positive infinity. -/
def jround (x : ℚ) : ℤ := ⌊x + 1 / 2⌋

/-- `Math.round(x * 100) / 100` — two-decimal rounding used on the
decision's numeric fields. -/
def round2 (x : ℚ) : ℚ := (jround (x * 100) : ℚ) / 100

/-- The strategy service configuration fields read by
`calculateDecision`. -/
structure StratConfig where
  CEX_TRADING_FEE_BPS : ℚ
  DEX_LP_FEE_BPS : ℚ
  GAS_COST_USDT : ℚ
  QUOTE_SIZE_USDT : ℚ
  REBALANCE_COST_BPS : ℚ
  SLIPPAGE_BUFFER_BPS : ℚ
  MIN_EDGE_BPS : ℚ
  MAX_TRADE_SIZE_USDT : ℚ
  INCLUDE_REBALANCE_COST : Bool
deriving DecidableEq, Repr

/-- `StrategyDecision["direction"]`. -/
inductive TradeDir
  | buy_cex_sell_dex
  | buy_dex_sell_cex
  | none
deriving DecidableEq, Repr

/-- The decision `reason` strings, as tags with their numeric data. -/
inductive DecisionReason
  | noPositiveSpread
  | edgeBelowThreshold (edgeAfterCostsBps minEdgeBps : ℚ)
  | edgeExceedsThreshold (edgeAfterCostsBps : ℚ) (direction : TradeDir)
deriving DecidableEq, Repr

/-- The CEX ticker fields used by `calculateDecision`. -/
structure CexTicker where
  symbol : String
  bid : ℚ
  ask : ℚ
deriving DecidableEq, Repr

/-- The Uniswap quote fields used by `calculateDecision`.
`lp_fee_bps` and `gas_cost_usdt` are optional in the source schema. -/
structure UniswapQuote where
  effective_price_usdt : ℚ
  lp_fee_bps : Option ℚ
  gas_cost_usdt : Option ℚ
deriving DecidableEq, Repr

/-- `StrategyDecision` as emitted by `calculateDecision` (timestamps and
the informational `cost_breakdown` log object are omitted). -/
structure StrategyDecisionOut where
  symbol : String
  lbank_bid : ℚ
  lbank_ask : ℚ
  uniswap_price : ℚ
  raw_spread_bps : ℚ
  estimated_cost_bps : ℚ
  edge_after_costs_bps : ℚ
  would_trade : Bool
  direction : TradeDir
  suggested_size_usdt : ℚ
  reason : DecisionReason
deriving DecidableEq, Repr

/-- `StrategyEngine.calculateDecision` from `strategyEngine.ts`.
The LP-fee term follows the source's truthiness test
`quote.lp_fee_bps ? quote.lp_fee_bps / 10 : config.DEX_LP_FEE_BPS`
(absent or zero live fee falls back to the static default), the gas
term the nullish coalescing `quote.gas_cost_usdt ?? config.GAS_COST_USDT`. -/
def calculateDecision (config : StratConfig) (ticker : CexTicker)
    (quote : UniswapQuote) : StrategyDecisionOut :=
  let uniswapPrice := quote.effective_price_usdt
  let spreadBuyCexSellDex := (uniswapPrice - ticker.ask) / ticker.ask * 10000
  let spreadBuyDexSellCex := (ticker.bid - uniswapPrice) / uniswapPrice * 10000
  let rawSpreadBps :=
    if spreadBuyCexSellDex > spreadBuyDexSellCex ∧ spreadBuyCexSellDex > 0 then
      spreadBuyCexSellDex
    else if spreadBuyDexSellCex > 0 then spreadBuyDexSellCex
    else max spreadBuyCexSellDex spreadBuyDexSellCex
  let direction :=
    if spreadBuyCexSellDex > spreadBuyDexSellCex ∧ spreadBuyCexSellDex > 0 then
      TradeDir.buy_cex_sell_dex
    else if spreadBuyDexSellCex > 0 then TradeDir.buy_dex_sell_cex
    else TradeDir.none
  let realLpFeeBps :=
    match quote.lp_fee_bps with
    | some v => if v = 0 then config.DEX_LP_FEE_BPS else v / 10
    | Option.none => config.DEX_LP_FEE_BPS
  let cexFeeBps := config.CEX_TRADING_FEE_BPS
  let dexFeeBps := realLpFeeBps
  let realTimeGasCostUsdt := quote.gas_cost_usdt.getD config.GAS_COST_USDT
  let gasCostBps := realTimeGasCostUsdt / config.QUOTE_SIZE_USDT * 10000
  let rebalanceBps := if config.INCLUDE_REBALANCE_COST then config.REBALANCE_COST_BPS else 0
  let slippageBps := config.SLIPPAGE_BUFFER_BPS
  let estimatedCostBps := cexFeeBps + dexFeeBps + gasCostBps + rebalanceBps + slippageBps
  let edgeAfterCostsBps := rawSpreadBps - estimatedCostBps
  let wouldTrade := edgeAfterCostsBps ≥ config.MIN_EDGE_BPS ∧ direction ≠ TradeDir.none
  let suggestedSize :=
    if wouldTrade then min config.QUOTE_SIZE_USDT config.MAX_TRADE_SIZE_USDT else 0
  let reason :=
    if direction = TradeDir.none then DecisionReason.noPositiveSpread
    else if ¬wouldTrade then
      DecisionReason.edgeBelowThreshold edgeAfterCostsBps config.MIN_EDGE_BPS
    else DecisionReason.edgeExceedsThreshold edgeAfterCostsBps direction
  { symbol := ticker.symbol
    lbank_bid := ticker.bid
    lbank_ask := ticker.ask
    uniswap_price := uniswapPrice
    raw_spread_bps := round2 rawSpreadBps
    estimated_cost_bps := round2 estimatedCostBps
    edge_after_costs_bps := round2 edgeAfterCostsBps
    would_trade := decide wouldTrade
    direction := direction
    suggested_size_usdt := suggestedSize
    reason := reason }

/-! ## Execution engine (`executionEngine.ts`) -/

/-- `EXECUTION_MODE ∈ {off, paper, live}`. -/
inductive ExecMode
  | off
  | paper
  | live
deriving DecidableEq, Repr

/-- The execution service configuration fields read by the engine. -/
structure ExecConfig where
  EXECUTION_MODE : ExecMode
  KILL_SWITCH : Bool
  MAX_ORDER_USDT : ℚ
  MAX_DAILY_VOLUME_USDT : ℚ
  MIN_EDGE_BPS : ℚ
  MAX_CONCURRENT_ORDERS : ℕ
  LBANK_API_KEY : String
  LBANK_API_SECRET : String
deriving DecidableEq, Repr

/-- Trade record status: `pending | filled | failed`. -/
inductive TradeStatus
  | pending
  | filled
  | failed
deriving DecidableEq, Repr

/-- `TradeRecord` row (timestamp string omitted; the fill columns set by
`updateTradeStatus` are modelled as optional fields). -/
structure TradeRecord where
  id : String
  symbol : String
  direction : String
  size_usdt : ℚ
  edge_bps : ℚ
  mode : ExecMode
  status : TradeStatus
  idempotency_key : String
  fill_price : Option ℚ
  pnl_usdt : Option ℚ
  error : Option String
deriving DecidableEq, Repr

/-- `DecisionRecord` row (timestamp and id strings kept, price columns
dropped — no claim reads them back). -/
structure DecisionRecordRow where
  id : String
  symbol : String
  would_trade : Bool
  direction : String
  suggested_size_usdt : ℚ
  edge_after_costs_bps : ℚ
  executed : Bool
deriving DecidableEq, Repr

/-- Modelled from the spec: the `Database` class
(`src/services/execution/src/database.ts`) is not under `src/`; per
spec §3/§6 it is a relational store with a `trades` table keyed by a
generated id in which `idempotencyKey` is the sole deduplication key,
a `decisions` table, and a derived daily-volume aggregate.  The
in-memory `activeOrders` map of the engine is also carried here. -/
structure EngineState where
  trades : List TradeRecord
  decisions : List DecisionRecordRow
  activeOrders : List (String × TradeRecord)
  dailyVolume : ℚ
deriving DecidableEq, Repr

/-- Modelled from the spec: `db.checkIdempotencyKey` — whether any
stored trade already carries this idempotency key. -/
def checkIdempotencyKey (s : EngineState) (key : String) : Bool :=
  s.trades.any (fun t => t.idempotency_key == key)

/-- Modelled from the spec: `db.insertTrade` appends a row. -/
def insertTrade (s : EngineState) (t : TradeRecord) : EngineState :=
  { s with trades := s.trades ++ [t] }

/-- Modelled from the spec: `db.insertDecision` appends a row. -/
def insertDecision (s : EngineState) (d : DecisionRecordRow) : EngineState :=
  { s with decisions := s.decisions ++ [d] }

/-- Modelled from the spec: `db.updateTradeStatus id status fillPrice
pnl error` updates the columns of the row keyed by `id`. -/
def updateTradeStatus (s : EngineState) (id : String) (status : TradeStatus)
    (fillPrice pnl : Option ℚ) (err : Option String) : EngineState :=
  { s with
      trades := s.trades.map (fun t =>
        if t.id == id then
          { t with status := status, fill_price := fillPrice, pnl_usdt := pnl, error := err }
        else t) }

/-- `this.activeOrders.delete(tradeId)`. -/
def removeActive (s : EngineState) (id : String) : EngineState :=
  { s with activeOrders := s.activeOrders.filter (fun p => p.1 != id) }

/-- `ExecuteParams` (the V4 pool key and tick, unused by the modelled
paths, are omitted). -/
structure ExecuteParams where
  symbol : String
  direction : String
  size_usdt : ℚ
  edge_bps : ℚ
  idempotency_key : String
  dex_price : Option ℚ
  cex_price : Option ℚ
  lp_fee_bps : Option ℚ
deriving DecidableEq, Repr

/-- `ExecuteResult.status` values produced by the engine. -/
inductive ResultStatus
  | duplicate
  | rejected
  | filled
  | failed
deriving DecidableEq, Repr

/-- `ExecuteResult.message` strings, as tags with their numeric data. -/
inductive ResultMsg
  | duplicateKey
  | sizeExceedsMax (sizeUsdt maxOrderUsdt : ℚ)
  | invalidMode
  | paperFilled
  | missingCredentials
  | notImplemented
deriving DecidableEq, Repr

/-- `ExecuteResult`. -/
structure ExecuteResult where
  success : Bool
  trade_id : Option String
  mode : ExecMode
  status : ResultStatus
  message : ResultMsg
  fill_price : Option ℚ
  pnl_usdt : Option ℚ
deriving DecidableEq, Repr

/-- `ExecutionEngine.executePaper` from `executionEngine.ts`.  The
`Math.random() * 5` jitter is the explicit `randomSlippageBps`
parameter.  `params?.dex_price || 0` and `params?.cex_price || 0` are
`getD 0` (JS `|| 0` maps both `undefined` and `0` to `0`);
`params?.lp_fee_bps || 30` maps absent *or zero* to `30`. -/
def executePaper (s : EngineState) (trade : TradeRecord)
    (params : Option ExecuteParams) (randomSlippageBps : ℚ) :
    ExecuteResult × EngineState :=
  let dexPrice := (params.bind (fun p => p.dex_price)).getD 0
  let cexPrice := (params.bind (fun p => p.cex_price)).getD 0
  let lpFeeBps :=
    match params.bind (fun p => p.lp_fee_bps) with
    | some v => if v = 0 then 30 else v
    | Option.none => 30
  let sizeSlippageBps := trade.size_usdt / 1000 * 10
  let totalSlippageBps := sizeSlippageBps + randomSlippageBps
  let fillAndPnl : ℚ × ℚ :=
    if 0 < dexPrice ∧ 0 < cexPrice then
      if trade.direction == "buy_dex_sell_cex" then
        let effectiveBuyPrice := dexPrice * (1 + totalSlippageBps / 10000)
        let effectiveSellPrice := cexPrice * (1 - totalSlippageBps / 10000)
        let grossProfitPct := (effectiveSellPrice - effectiveBuyPrice) / effectiveBuyPrice
        let grossProfitUsdt := grossProfitPct * trade.size_usdt
        let lpFeeUsdt := trade.size_usdt * (lpFeeBps / 10000)
        (effectiveBuyPrice, grossProfitUsdt - lpFeeUsdt - 1 / 2)
      else
        let effectiveBuyPrice := cexPrice * (1 + totalSlippageBps / 10000)
        let effectiveSellPrice := dexPrice * (1 - totalSlippageBps / 10000)
        let grossProfitPct := (effectiveSellPrice - effectiveBuyPrice) / effectiveBuyPrice
        let grossProfitUsdt := grossProfitPct * trade.size_usdt
        let lpFeeUsdt := trade.size_usdt * (lpFeeBps / 10000)
        (effectiveSellPrice, grossProfitUsdt - lpFeeUsdt - 1 / 2)
    else
      (1, (trade.edge_bps - totalSlippageBps - lpFeeBps) * trade.size_usdt / 10000)
  let s' := removeActive
    (updateTradeStatus s trade.id TradeStatus.filled (some fillAndPnl.1)
      (some fillAndPnl.2) Option.none)
    trade.id
  ({ success := true
     trade_id := some trade.id
     mode := ExecMode.paper
     status := ResultStatus.filled
     message := ResultMsg.paperFilled
     fill_price := some fillAndPnl.1
     pnl_usdt := some fillAndPnl.2 }, s')

/-- `ExecutionEngine.executeLive`: with either LBank credential absent
(empty string is falsy) the trade fails with "Missing API credentials";
with both present it still fails with "Live trading not yet
implemented". -/
def executeLive (config : ExecConfig) (s : EngineState) (trade : TradeRecord) :
    ExecuteResult × EngineState :=
  if config.LBANK_API_KEY = "" ∨ config.LBANK_API_SECRET = "" then
    let s' := removeActive
      (updateTradeStatus s trade.id TradeStatus.failed Option.none Option.none
        (some "Missing API credentials"))
      trade.id
    ({ success := false
       trade_id := some trade.id
       mode := ExecMode.live
       status := ResultStatus.failed
       message := ResultMsg.missingCredentials
       fill_price := Option.none
       pnl_usdt := Option.none }, s')
  else
    let s' := removeActive
      (updateTradeStatus s trade.id TradeStatus.failed Option.none Option.none
        (some "Live trading not yet implemented"))
      trade.id
    ({ success := false
       trade_id := some trade.id
       mode := ExecMode.live
       status := ResultStatus.failed
       message := ResultMsg.notImplemented
       fill_price := Option.none
       pnl_usdt := Option.none }, s')

/-- `ExecutionEngine.execute` from `executionEngine.ts`: idempotency
check, size check, insert a PENDING record and track it in
`activeOrders`, then dispatch by mode.  The generated `uuidv4()` trade
id is the explicit `newTradeId` parameter.  Note the source dispatches
paper mode as `this.executePaper(trade)` — `params` is *not*
forwarded. -/
def execute (config : ExecConfig) (s : EngineState) (params : ExecuteParams)
    (newTradeId : String) (randomSlippageBps : ℚ) : ExecuteResult × EngineState :=
  if checkIdempotencyKey s params.idempotency_key then
    ({ success := false
       trade_id := Option.none
       mode := config.EXECUTION_MODE
       status := ResultStatus.duplicate
       message := ResultMsg.duplicateKey
       fill_price := Option.none
       pnl_usdt := Option.none }, s)
  else if params.size_usdt > config.MAX_ORDER_USDT then
    ({ success := false
       trade_id := Option.none
       mode := config.EXECUTION_MODE
       status := ResultStatus.rejected
       message := ResultMsg.sizeExceedsMax params.size_usdt config.MAX_ORDER_USDT
       fill_price := Option.none
       pnl_usdt := Option.none }, s)
  else
    let trade : TradeRecord :=
      { id := newTradeId
        symbol := params.symbol
        direction := params.direction
        size_usdt := params.size_usdt
        edge_bps := params.edge_bps
        mode := config.EXECUTION_MODE
        status := TradeStatus.pending
        idempotency_key := params.idempotency_key
        fill_price := Option.none
        pnl_usdt := Option.none
        error := Option.none }
    let s1 := { insertTrade s trade with
                  activeOrders := s.activeOrders ++ [(newTradeId, trade)] }
    match config.EXECUTION_MODE with
    | ExecMode.paper => executePaper s1 trade Option.none randomSlippageBps
    | ExecMode.live => executeLive config s1 trade
    | ExecMode.off =>
      ({ success := false
         trade_id := some newTradeId
         mode := config.EXECUTION_MODE
         status := ResultStatus.rejected
         message := ResultMsg.invalidMode
         fill_price := Option.none
         pnl_usdt := Option.none }, s1)

/-- The `StrategyDecision` fields read by `validateExecution` and
`evaluateAndExecute`. -/
structure StrategyDecisionIn where
  symbol : String
  lbank_bid : ℚ
  lbank_ask : ℚ
  uniswap_price : ℚ
  raw_spread_bps : ℚ
  edge_after_costs_bps : ℚ
  would_trade : Bool
  direction : String
  suggested_size_usdt : ℚ
deriving DecidableEq, Repr

/-- `validateExecution` rejection reasons, in source order. -/
inductive VReason
  | killSwitchActive
  | modeOff
  | edgeBelowMin (edgeAfterCostsBps minEdgeBps : ℚ)
  | dailyVolumeExceeded
  | maxConcurrentReached
deriving DecidableEq, Repr

/-- `ExecutionEngine.validateExecution`: kill switch, mode off, edge
threshold, daily volume, concurrency — first failure wins.  `none`
means valid. -/
def validateExecution (config : ExecConfig) (s : EngineState)
    (decision : StrategyDecisionIn) : Option VReason :=
  if config.KILL_SWITCH then some VReason.killSwitchActive
  else if config.EXECUTION_MODE = ExecMode.off then some VReason.modeOff
  else if decision.edge_after_costs_bps < config.MIN_EDGE_BPS then
    some (VReason.edgeBelowMin decision.edge_after_costs_bps config.MIN_EDGE_BPS)
  else if s.dailyVolume + decision.suggested_size_usdt > config.MAX_DAILY_VOLUME_USDT then
    some VReason.dailyVolumeExceeded
  else if s.activeOrders.length ≥ config.MAX_CONCURRENT_ORDERS then
    some VReason.maxConcurrentReached
  else Option.none

/-- `ExecutionEngine.evaluateAndExecute`: record the decision, stop if
`would_trade` is false or validation fails, else `execute` with size
clamped to `MAX_ORDER_USDT` and a fresh idempotency key.  The generated
uuids are explicit parameters. -/
def evaluateAndExecute (config : ExecConfig) (s : EngineState)
    (decision : StrategyDecisionIn) (decisionId newKey newTradeId : String)
    (randomSlippageBps : ℚ) : EngineState :=
  let s1 := insertDecision s
    { id := decisionId
      symbol := decision.symbol
      would_trade := decision.would_trade
      direction := decision.direction
      suggested_size_usdt := decision.suggested_size_usdt
      edge_after_costs_bps := decision.edge_after_costs_bps
      executed := false }
  if ¬decision.would_trade then s1
  else
    match validateExecution config s1 decision with
    | some _ => s1
    | Option.none =>
      (execute config s1
        { symbol := decision.symbol
          direction := decision.direction
          size_usdt := min decision.suggested_size_usdt config.MAX_ORDER_USDT
          edge_bps := decision.edge_after_costs_bps
          idempotency_key := newKey
          dex_price := Option.none
          cex_price := Option.none
          lp_fee_bps := Option.none }
        newTradeId randomSlippageBps).2

/-! ## Concrete values used by witnesses and counterexamples -/

/-- Example alignment configuration: neutral ±0.5 %, soft ±2 %,
hard ±3 %, margin 0.1 %. -/
def exAlignConfig : AlignmentConfig :=
  { bands := { neutralPercent := 1 / 2, softPercent := 2, hardPercent := 3,
               alignmentMargin := 1 / 10 }
    maxTradeSizeUsdt := 500
    cooldownSeconds := 120
    minBenefitBps := 10 }

/-- First entry of the spec's example ladder: `(100, 1.00)`. -/
def exEntry1 : QuoteLadderEntry :=
  { amountInUSDT := 100, price_usdt_per_token := 1, valid := true }

/-- Second entry of the spec's example ladder: `(200, 1.02)`. -/
def exEntry2 : QuoteLadderEntry :=
  { amountInUSDT := 200, price_usdt_per_token := 51 / 50, valid := true }

/-- The spec's example ladder `[(100, 1.00), (200, 1.02)]`. -/
def exLadder : List QuoteLadderEntry := [exEntry1, exEntry2]

/-- Example strategy config: CEX fee 10 bps, static LP fee 30 bps, gas
$0, quote size $1000, rebalance 5 bps (feature off), slippage buffer
30 bps, min edge 50 bps, max trade $1000. -/
def exStratConfig : StratConfig :=
  { CEX_TRADING_FEE_BPS := 10
    DEX_LP_FEE_BPS := 30
    GAS_COST_USDT := 0
    QUOTE_SIZE_USDT := 1000
    REBALANCE_COST_BPS := 5
    SLIPPAGE_BUFFER_BPS := 30
    MIN_EDGE_BPS := 50
    MAX_TRADE_SIZE_USDT := 1000
    INCLUDE_REBALANCE_COST := false }

/-- Example CEX ticker with bid = ask = 1. -/
def exTicker : CexTicker := { symbol := "csr_usdt", bid := 1, ask := 1 }

/-- Example quote: DEX price 1.10, live LP fee 250 (= 25 bps), gas $0. -/
def exQuote : UniswapQuote :=
  { effective_price_usdt := 11 / 10, lp_fee_bps := some 250, gas_cost_usdt := some 0 }

/-- Paper-mode execution config, kill switch off. -/
def cfgPaper : ExecConfig :=
  { EXECUTION_MODE := ExecMode.paper
    KILL_SWITCH := false
    MAX_ORDER_USDT := 5000
    MAX_DAILY_VOLUME_USDT := 100000
    MIN_EDGE_BPS := 50
    MAX_CONCURRENT_ORDERS := 5
    LBANK_API_KEY := ""
    LBANK_API_SECRET := "" }

/-- Live-mode execution config with both credentials present. -/
def cfgLiveCreds : ExecConfig :=
  { cfgPaper with
      EXECUTION_MODE := ExecMode.live
      LBANK_API_KEY := "key"
      LBANK_API_SECRET := "secret" }

/-- Mode-off execution config with the kill switch ACTIVE. -/
def cfgKill : ExecConfig :=
  { cfgPaper with EXECUTION_MODE := ExecMode.off, KILL_SWITCH := true }

/-- Empty engine state. -/
def s0 : EngineState := { trades := [], decisions := [], activeOrders := [], dailyVolume := 0 }

/-- Example execution request carrying real V4 prices
(`dex_price = 1.00`, `cex_price = 1.02`, live LP fee 30 bps). -/
def pEx : ExecuteParams :=
  { symbol := "csr_usdt"
    direction := "buy_dex_sell_cex"
    size_usdt := 1000
    edge_bps := 100
    idempotency_key := "k1"
    dex_price := some 1
    cex_price := some (51 / 50)
    lp_fee_bps := some 30 }

/-- Retry of `pEx` with a size exceeding `MAX_ORDER_USDT`. -/
def pExBig : ExecuteParams := { pEx with size_usdt := 99999 }

/-- The pending trade record `execute cfgPaper s0 pEx "t1"` inserts. -/
def tradeEx : TradeRecord :=
  { id := "t1"
    symbol := "csr_usdt"
    direction := "buy_dex_sell_cex"
    size_usdt := 1000
    edge_bps := 100
    mode := ExecMode.paper
    status := TradeStatus.pending
    idempotency_key := "k1"
    fill_price := Option.none
    pnl_usdt := Option.none
    error := Option.none }

/-- Example strategy decision that would trade. -/
def dEx : StrategyDecisionIn :=
  { symbol := "csr_usdt"
    lbank_bid := 1
    lbank_ask := 1
    uniswap_price := 11 / 10
    raw_spread_bps := 1000
    edge_after_costs_bps := 935
    would_trade := true
    direction := "buy_cex_sell_dex"
    suggested_size_usdt := 1000 }

/-- Example finite price comparison in the hard band. -/
def exPrices : PriceComparison :=
  { cexPrice := 1
    cexSource := "lbank"
    dexPrice := 11 / 10
    dexSizeUsdt := 100
    deviationPercent := 10
    deviationBps := 1000
    bandStatus := Band.hard }

/-- Example active cooldown. -/
def exCooldownOn : CooldownState :=
  { lastTradeTs := some 0
    lastDirection := AlignDir.sell_dex
    lastSizeUsdt := 100
    inCooldown := true
    cooldownRemaining := 60 }

/-- Example inactive cooldown. -/
def exCooldownOff : CooldownState :=
  { lastTradeTs := Option.none
    lastDirection := AlignDir.none
    lastSizeUsdt := 0
    inCooldown := false
    cooldownRemaining := 0 }

/-! ## Helper lemmas -/

theorem countP_map_ite {α : Type} (l : List α) (c : α → Bool) (g : α → α)
    (q : α → Bool) (hg : ∀ x, q (g x) = q x) :
    (l.map fun x => if c x then g x else x).countP q = l.countP q := by
  induction l with
  | nil => rfl
  | cons x xs ih =>
    by_cases h : c x = true <;>
      simp [List.countP_cons, h, hg, ih]

theorem any_map_ite {α : Type} (l : List α) (c : α → Bool) (g : α → α)
    (q : α → Bool) (hg : ∀ x, q (g x) = q x) :
    (l.map fun x => if c x then g x else x).any q = l.any q := by
  induction l with
  | nil => rfl
  | cons x xs ih =>
    by_cases h : c x = true <;>
      simp [List.any_cons, h, hg, ih]

theorem firstBracket_some (l : List QuoteLadderEntry) (t : ℚ)
    (lower upper : QuoteLadderEntry)
    (h : firstBracket l t = some (lower, upper)) : brackets lower upper t := by
  induction l with
  | nil => simp [firstBracket] at h
  | cons a l ih =>
    cases l with
    | nil => simp [firstBracket] at h
    | cons b rest =>
      rw [firstBracket] at h
      split at h
      · rename_i hbr
        obtain ⟨rfl, rfl⟩ : a = lower ∧ b = upper := by
          simpa using h
        exact hbr
      · exact ih h

theorem firstBracket_none_pairs (l : List QuoteLadderEntry) (t : ℚ)
    (h : firstBracket l t = none) :
    ∀ i, (hi : i + 1 < l.length) →
      ¬ brackets (l.get ⟨i, Nat.lt_of_succ_lt hi⟩) (l.get ⟨i + 1, hi⟩) t := by
  induction l with
  | nil => intro i hi; simp at hi
  | cons a l ih =>
    intro i hi
    cases l with
    | nil => simp at hi
    | cons b rest =>
      rw [firstBracket] at h
      split at h
      · simp at h
      · rename_i hnbr
        cases i with
        | zero => simpa using hnbr
        | succ n =>
          have hi' : n + 1 < (b :: rest).length := by
            simpa using hi
          simpa using ih h n hi'

theorem countP_key_map_setStatus (l : List TradeRecord) (id : String)
    (st : TradeStatus) (fp pn : Option ℚ) (er : Option String) (k : String) :
    ((l.map fun t =>
        if t.id = id then
          { t with status := st, fill_price := fp, pnl_usdt := pn, error := er }
        else t).countP fun t => t.idempotency_key == k)
      = l.countP fun t => t.idempotency_key == k := by
  induction l with
  | nil => rfl
  | cons x xs ih =>
    by_cases h : x.id = id <;> simp [List.countP_cons, h, ih]

theorem countP_key_comp_setStatus (l : List TradeRecord) (id : String)
    (st : TradeStatus) (fp pn : Option ℚ) (er : Option String) (k : String) :
    (l.countP ((fun t => t.idempotency_key == k) ∘ fun t =>
        if t.id = id then
          { t with status := st, fill_price := fp, pnl_usdt := pn, error := er }
        else t))
      = l.countP fun t => t.idempotency_key == k := by
  induction l with
  | nil => rfl
  | cons x xs ih =>
    by_cases h : x.id = id <;> simp [List.countP_cons, h, ih, Function.comp]

theorem execute_fresh_key (config : ExecConfig) (s : EngineState)
    (params : ExecuteParams) (newTradeId : String) (j : ℚ)
    (hk : checkIdempotencyKey s params.idempotency_key = false)
    (hsz : params.size_usdt ≤ config.MAX_ORDER_USDT) :
    ((execute config s params newTradeId j).2.trades.countP
        fun t => t.idempotency_key == params.idempotency_key)
      = (s.trades.countP fun t => t.idempotency_key == params.idempotency_key) + 1 ∧
    checkIdempotencyKey (execute config s params newTradeId j).2
      params.idempotency_key = true := by
  have hsz' : ¬ params.size_usdt > config.MAX_ORDER_USDT := not_lt.mpr hsz
  have hk' : ¬ ∃ x ∈ s.trades, x.idempotency_key = params.idempotency_key := by
    simpa [checkIdempotencyKey] using hk
  have hcount : ((execute config s params newTradeId j).2.trades.countP
      fun t => t.idempotency_key == params.idempotency_key)
      = (s.trades.countP fun t => t.idempotency_key == params.idempotency_key) + 1 := by
    cases hm : config.EXECUTION_MODE with
    | off =>
      simp [execute, hk, hk', hsz', hm, insertTrade,
        List.countP_append, List.countP_cons]
    | paper =>
      simp [execute, hk, hk', hsz', hm, executePaper, removeActive, updateTradeStatus,
        insertTrade, countP_key_map_setStatus, countP_key_comp_setStatus,
        List.countP_append, List.countP_cons]
    | live =>
      by_cases hc : config.LBANK_API_KEY = "" ∨ config.LBANK_API_SECRET = "" <;>
        simp [execute, hk, hk', hsz', hm, executeLive, hc, removeActive, updateTradeStatus,
          insertTrade, countP_key_map_setStatus, countP_key_comp_setStatus,
        List.countP_append, List.countP_cons]
  refine ⟨hcount, ?_⟩
  have hpos : 0 < ((execute config s params newTradeId j).2.trades.countP
      fun t => t.idempotency_key == params.idempotency_key) := by
    rw [hcount]
    exact Nat.succ_pos _
  obtain ⟨a, ha, hpa⟩ := List.countP_pos_iff.mp hpos
  simp only [checkIdempotencyKey, List.any_eq_true]
  exact ⟨a, ha, hpa⟩

theorem execute_duplicate (config : ExecConfig) (s : EngineState)
    (params : ExecuteParams) (newTradeId : String) (j : ℚ)
    (h : checkIdempotencyKey s params.idempotency_key = true) :
    execute config s params newTradeId j =
      ({ success := false
         trade_id := Option.none
         mode := config.EXECUTION_MODE
         status := ResultStatus.duplicate
         message := ResultMsg.duplicateKey
         fill_price := Option.none
         pnl_usdt := Option.none }, s) := by
  simp [execute, h]

/-! ## Claim theorems -/

/-- C8: `classifyBand` compares the absolute deviation against
`neutralPercent` then `softPercent` with inclusive boundaries:
`|d| ≤ neutral` is neutral, `neutral < |d| ≤ soft` is soft, anything
beyond is hard; in particular `d = neutralPercent` is neutral and
`d = softPercent` is soft (under the configuration invariant
`0 ≤ neutralPercent < softPercent`). -/
theorem classifyBand_inclusive_boundaries :
    ∀ (d : ℚ) (config : AlignmentConfig),
      (|d| ≤ config.bands.neutralPercent → classifyBand d config = Band.neutral) ∧
      (config.bands.neutralPercent < |d| → |d| ≤ config.bands.softPercent →
        classifyBand d config = Band.soft) ∧
      (config.bands.neutralPercent < |d| → config.bands.softPercent < |d| →
        classifyBand d config = Band.hard) ∧
      (0 ≤ config.bands.neutralPercent →
        classifyBand config.bands.neutralPercent config = Band.neutral) ∧
      (0 ≤ config.bands.neutralPercent →
        config.bands.neutralPercent < config.bands.softPercent →
        classifyBand config.bands.softPercent config = Band.soft) := by
  intro d config
  refine ⟨?_, ?_, ?_, ?_, ?_⟩
  · intro h
    simp [classifyBand, h]
  · intro h1 h2
    simp [classifyBand, not_le.mpr h1, h2]
  · intro h1 h2
    simp [classifyBand, not_le.mpr h1, not_le.mpr h2]
  · intro h0
    simp [classifyBand, abs_of_nonneg h0]
  · intro h0 hns
    have hs : (0 : ℚ) ≤ config.bands.softPercent := le_trans h0 (le_of_lt hns)
    simp [classifyBand, abs_of_nonneg hs, not_le.mpr hns]

/-- C8 witness: with neutral = 0.5 and soft = 2, a deviation of exactly
0.5 is neutral and a deviation of exactly 2 is soft. -/
theorem classifyBand_inclusive_boundaries_witness :
    classifyBand (1 / 2) exAlignConfig = Band.neutral ∧
    classifyBand 2 exAlignConfig = Band.soft := by
  constructor
  · exact (classifyBand_inclusive_boundaries (1 / 2) exAlignConfig).2.2.2.1 (by norm_num [exAlignConfig])
  · exact (classifyBand_inclusive_boundaries 2 exAlignConfig).2.2.2.2 (by norm_num [exAlignConfig])
      (by norm_num [exAlignConfig])

/-- C4: evaluation of `comparePrices` at `cexPrice = 0`,
`dexPrice = 1`: the deviation is computed as `(1 - 0) / 0 * 100`, which
under JS float semantics is `+Infinity`, and the band classification is
`hard` — a maximal-urgency signal, not a "no signal" (neutral)
comparison; there is no guard on the division in the source. -/
theorem comparePrices_zero_cex_eval :
    (comparePrices 0 "lbank" 1 100 exAlignConfig).bandStatus = Band.hard ∧
    (comparePrices 0 "lbank" 1 100 exAlignConfig).deviationPercent = JVal.posInf ∧
    Band.hard ≠ Band.neutral := by
  refine ⟨?_, ?_, by decide⟩ <;>
    norm_num [comparePrices, jsDiv, jsMul100, classifyBandJ, jabs, jleB]

/-- C6 counterexample: with `SLIPPAGE_BUFFER_BPS = 30`, CEX fee 10 bps,
live LP fee 25 bps, zero gas, rebalance off, and a $1000 trade, the
decision's `estimated_cost_bps` is 65, whereas the claim's formula —
with the size-proportional slippage `min(size/1000*5, 50) = 5` bps —
would give 40. -/
theorem calculateDecision_claimed_cost_formula_fails :
    (calculateDecision exStratConfig exTicker exQuote).estimated_cost_bps = 65 ∧
    (calculateDecision exStratConfig exTicker exQuote).suggested_size_usdt = 1000 ∧
    (65 : ℚ) ≠ 10 + 25 + 0 + 0 + min ((1000 : ℚ) / 1000 * 5) 50 := by
  refine ⟨by norm_num [calculateDecision, round2, jround, exStratConfig, exTicker, exQuote],
    ?_, by norm_num⟩
  norm_num [calculateDecision, round2, jround, exStratConfig, exTicker, exQuote]
  decide

/-- C6 (amended): the decision's `estimated_cost_bps` is the
two-decimal rounding of CEX trading fee + DEX LP fee (live fee `/10`
when present and nonzero, else the static default) + gas cost in bps of
the quote size + rebalance cost when the feature flag is on (else 0) +
the *config constant* `SLIPPAGE_BUFFER_BPS`; and `edge_after_costs_bps`
is the two-decimal rounding of the raw spread minus that total. -/
theorem calculateDecision_cost_model :
    ∀ (config : StratConfig) (ticker : CexTicker) (quote : UniswapQuote),
      (calculateDecision config ticker quote).estimated_cost_bps =
        round2 (config.CEX_TRADING_FEE_BPS +
          (match quote.lp_fee_bps with
           | some v => if v = 0 then config.DEX_LP_FEE_BPS else v / 10
           | Option.none => config.DEX_LP_FEE_BPS) +
          quote.gas_cost_usdt.getD config.GAS_COST_USDT / config.QUOTE_SIZE_USDT * 10000 +
          (if config.INCLUDE_REBALANCE_COST then config.REBALANCE_COST_BPS else 0) +
          config.SLIPPAGE_BUFFER_BPS) ∧
      (calculateDecision config ticker quote).edge_after_costs_bps =
        round2 ((let spread1 := (quote.effective_price_usdt - ticker.ask) / ticker.ask * 10000
                 let spread2 :=
                   (ticker.bid - quote.effective_price_usdt) / quote.effective_price_usdt * 10000
                 if spread1 > spread2 ∧ spread1 > 0 then spread1
                 else if spread2 > 0 then spread2
                 else max spread1 spread2) -
          (config.CEX_TRADING_FEE_BPS +
            (match quote.lp_fee_bps with
             | some v => if v = 0 then config.DEX_LP_FEE_BPS else v / 10
             | Option.none => config.DEX_LP_FEE_BPS) +
            quote.gas_cost_usdt.getD config.GAS_COST_USDT / config.QUOTE_SIZE_USDT * 10000 +
            (if config.INCLUDE_REBALANCE_COST then config.REBALANCE_COST_BPS else 0) +
            config.SLIPPAGE_BUFFER_BPS)) := by
  intro config ticker quote
  exact ⟨rfl, rfl⟩

/-- C1: a call to `execute` whose idempotency key has already been seen
returns a `duplicate` result and leaves the state (trades table,
active-order set) completely unchanged; and calling `execute` twice
with the same idempotency key — the first with a valid size, the retry
with ANY size, even one exceeding `MAX_ORDER_USDT` — yields a second
result of status `duplicate` and exactly one stored `TradeRecord` with
that key, because the idempotency check precedes the size check. -/
theorem execute_idempotent :
    (∀ (config : ExecConfig) (s : EngineState) (params : ExecuteParams)
        (newTradeId : String) (j : ℚ),
      checkIdempotencyKey s params.idempotency_key = true →
      execute config s params newTradeId j =
        ({ success := false
           trade_id := Option.none
           mode := config.EXECUTION_MODE
           status := ResultStatus.duplicate
           message := ResultMsg.duplicateKey
           fill_price := Option.none
           pnl_usdt := Option.none }, s)) ∧
    (∀ (config : ExecConfig) (s : EngineState) (p₁ p₂ : ExecuteParams)
        (id₁ id₂ : String) (j₁ j₂ : ℚ),
      checkIdempotencyKey s p₁.idempotency_key = false →
      p₁.size_usdt ≤ config.MAX_ORDER_USDT →
      p₂.idempotency_key = p₁.idempotency_key →
      (execute config (execute config s p₁ id₁ j₁).2 p₂ id₂ j₂).1.status =
        ResultStatus.duplicate ∧
      ((execute config (execute config s p₁ id₁ j₁).2 p₂ id₂ j₂).2.trades.countP
        fun t => t.idempotency_key == p₁.idempotency_key) = 1) := by
  constructor
  · intro config s params newTradeId j h
    exact execute_duplicate config s params newTradeId j h
  · intro config s p₁ p₂ id₁ id₂ j₁ j₂ hk hsz hkey
    obtain ⟨hcount, hseen⟩ := execute_fresh_key config s p₁ id₁ j₁ hk hsz
    have hseen₂ : checkIdempotencyKey (execute config s p₁ id₁ j₁).2
        p₂.idempotency_key = true := by
      rw [hkey]
      exact hseen
    rw [execute_duplicate config (execute config s p₁ id₁ j₁).2 p₂ id₂ j₂ hseen₂]
    have h0 : (s.trades.countP fun t => t.idempotency_key == p₁.idempotency_key) = 0 := by
      refine List.countP_eq_zero.mpr ?_
      intro a ha
      have := List.any_eq_false.mp hk a ha
      simpa using this
    refine ⟨rfl, ?_⟩
    rw [hcount, h0]

/-- C1 witness: executing `pEx` (fresh key, size 1000 ≤ 5000) then
retrying with the same key but size 99999 > `MAX_ORDER_USDT` returns
`duplicate` and stores exactly one record with key "k1". -/
theorem execute_idempotent_witness :
    (execute cfgPaper (execute cfgPaper s0 pEx "a" 0).2 pExBig "b" 0).1.status =
      ResultStatus.duplicate ∧
    ((execute cfgPaper (execute cfgPaper s0 pEx "a" 0).2 pExBig "b" 0).2.trades.countP
      fun t => t.idempotency_key == pEx.idempotency_key) = 1 := by
  have h := execute_idempotent.2 cfgPaper s0 pEx pExBig "a" "b" 0 0 rfl
    (by norm_num [pEx, cfgPaper]) rfl
  simpa using h

/-- C2 counterexample: with `KILL_SWITCH = true` (and mode "off"), a
direct call to the public `execute` still inserts a TradeRecord with
status `pending` and adds it to the active-order set — `execute` never
consults the kill switch, so the claim's "no request reaches PENDING
regardless of other parameters ... on direct calls to execute" is
false. -/
theorem execute_ignores_kill_switch :
    cfgKill.KILL_SWITCH = true ∧
    ((execute cfgKill s0 pEx "t1" 0).2.trades.any
      fun t => decide (t.status = TradeStatus.pending)) = true ∧
    (execute cfgKill s0 pEx "t1" 0).2.activeOrders.length = 1 := by
  refine ⟨rfl, ?_, ?_⟩ <;>
    norm_num [execute, checkIdempotencyKey, insertTrade, cfgKill, cfgPaper, s0, pEx]

/-- C2 (amended): with `KILL_SWITCH = true` no request reaches PENDING
on the `evaluateAndExecute` path — `validateExecution` rejects with
"Kill switch is active" before `execute` is ever called, so the trades
table and the active-order set are unchanged for every decision.  (A
direct call to the public `execute` is NOT covered: it does not check
the kill switch.) -/
theorem killSwitch_blocks_evaluateAndExecute :
    ∀ (config : ExecConfig) (s : EngineState) (decision : StrategyDecisionIn)
      (decisionId newKey newTradeId : String) (j : ℚ),
      config.KILL_SWITCH = true →
      validateExecution config s decision = some VReason.killSwitchActive ∧
      (evaluateAndExecute config s decision decisionId newKey newTradeId j).trades =
        s.trades ∧
      (evaluateAndExecute config s decision decisionId newKey newTradeId j).activeOrders =
        s.activeOrders := by
  intro config s decision decisionId newKey newTradeId j h
  refine ⟨by simp [validateExecution, h], ?_, ?_⟩ <;>
    by_cases hw : decision.would_trade <;>
      simp [evaluateAndExecute, insertDecision, validateExecution, h, hw]

/-- C2 witness: the kill-switch configuration rejects the example
decision with "Kill switch is active" and leaves the empty state's
trades and active orders empty. -/
theorem killSwitch_blocks_evaluateAndExecute_witness :
    validateExecution cfgKill s0 dEx = some VReason.killSwitchActive ∧
    (evaluateAndExecute cfgKill s0 dEx "d1" "k2" "t2" 0).trades = [] ∧
    (evaluateAndExecute cfgKill s0 dEx "d1" "k2" "t2" 0).activeOrders = [] := by
  have h := killSwitch_blocks_evaluateAndExecute cfgKill s0 dEx "d1" "k2" "t2" 0 rfl
  simpa [s0] using h

/-- C9: in live mode, every `execute` call that passes the idempotency
and size checks terminates with the trade marked failed and a result
with `success = false` and status `failed` — for every credential
configuration, including when both LBank credentials are present (the
credentialed path fails with "not yet implemented"); the order is
removed from the active set and no live execution ever fills. -/
theorem executeLive_always_fails :
    ∀ (config : ExecConfig) (s : EngineState) (params : ExecuteParams)
      (newTradeId : String) (j : ℚ),
      config.EXECUTION_MODE = ExecMode.live →
      checkIdempotencyKey s params.idempotency_key = false →
      params.size_usdt ≤ config.MAX_ORDER_USDT →
      (execute config s params newTradeId j).1.success = false ∧
      (execute config s params newTradeId j).1.status = ResultStatus.failed ∧
      ((execute config s params newTradeId j).2.trades.any
        fun t => t.id == newTradeId && decide (t.status = TradeStatus.failed)) = true ∧
      ((execute config s params newTradeId j).2.activeOrders.any
        fun q => q.1 == newTradeId) = false := by
  intro config s params newTradeId j hm hk hsz
  have hsz' : ¬ params.size_usdt > config.MAX_ORDER_USDT := not_lt.mpr hsz
  by_cases hc : config.LBANK_API_KEY = "" ∨ config.LBANK_API_SECRET = "" <;>
    refine ⟨?_, ?_, ?_, ?_⟩ <;>
      simp [execute, hk, hsz', hm, executeLive, hc, insertTrade, updateTradeStatus,
        removeActive, List.any_append, List.mem_filter]

/-- C9 witness: with both credentials present ("key"/"secret"), a fresh
valid request in live mode still fails. -/
theorem executeLive_always_fails_witness :
    (execute cfgLiveCreds s0 pEx "t9" 0).1.success = false ∧
    (execute cfgLiveCreds s0 pEx "t9" 0).1.status = ResultStatus.failed ∧
    ((execute cfgLiveCreds s0 pEx "t9" 0).2.trades.any
      fun t => t.id == "t9" && decide (t.status = TradeStatus.failed)) = true ∧
    ((execute cfgLiveCreds s0 pEx "t9" 0).2.activeOrders.any
      fun q => q.1 == "t9") = false := by
  exact executeLive_always_fails cfgLiveCreds s0 pEx "t9" 0 rfl rfl
    (by norm_num [pEx, cfgLiveCreds, cfgPaper])

/-- C10: with `EXECUTION_MODE = off`, a direct `execute` call with an
unseen key and a valid size inserts a PENDING TradeRecord, adds it to
the active-order set, returns a `rejected` result with message
"Invalid execution mode", and the record is left pending and still in
the active-order set — this path violates the every-PENDING-reaches-a-
terminal-state property. -/
theorem execute_mode_off_leaves_pending :
    ∀ (config : ExecConfig) (s : EngineState) (params : ExecuteParams)
      (newTradeId : String) (j : ℚ),
      config.EXECUTION_MODE = ExecMode.off →
      checkIdempotencyKey s params.idempotency_key = false →
      params.size_usdt ≤ config.MAX_ORDER_USDT →
      (execute config s params newTradeId j).1.status = ResultStatus.rejected ∧
      (execute config s params newTradeId j).1.message = ResultMsg.invalidMode ∧
      (execute config s params newTradeId j).1.success = false ∧
      (execute config s params newTradeId j).2.trades =
        s.trades ++
          [{ id := newTradeId
             symbol := params.symbol
             direction := params.direction
             size_usdt := params.size_usdt
             edge_bps := params.edge_bps
             mode := ExecMode.off
             status := TradeStatus.pending
             idempotency_key := params.idempotency_key
             fill_price := Option.none
             pnl_usdt := Option.none
             error := Option.none }] ∧
      (execute config s params newTradeId j).2.activeOrders =
        s.activeOrders ++
          [(newTradeId,
            { id := newTradeId
              symbol := params.symbol
              direction := params.direction
              size_usdt := params.size_usdt
              edge_bps := params.edge_bps
              mode := ExecMode.off
              status := TradeStatus.pending
              idempotency_key := params.idempotency_key
              fill_price := Option.none
              pnl_usdt := Option.none
              error := Option.none })] := by
  intro config s params newTradeId j hm hk hsz
  have hsz' : ¬ params.size_usdt > config.MAX_ORDER_USDT := not_lt.mpr hsz
  refine ⟨?_, ?_, ?_, ?_, ?_⟩ <;>
    simp [execute, hk, hsz', hm, insertTrade]

/-- C10 witness: concrete mode-off execution of `pEx` leaves one pending
record in the trades table and in the active-order set while returning
`rejected` / "Invalid execution mode". -/
theorem execute_mode_off_leaves_pending_witness :
    (execute cfgKill s0 pEx "t1" 0).1.status = ResultStatus.rejected ∧
    (execute cfgKill s0 pEx "t1" 0).1.message = ResultMsg.invalidMode ∧
    ((execute cfgKill s0 pEx "t1" 0).2.trades.map fun t => t.status) =
      [TradeStatus.pending] := by
  have h := execute_mode_off_leaves_pending cfgKill s0 pEx "t1" 0 rfl rfl
    (by norm_num [pEx, cfgKill, cfgPaper])
  refine ⟨h.1, h.2.1, ?_⟩
  rw [h.2.2.2.1]
  simp [s0]

/-- C3: evaluation at the failing input — a paper-mode `execute` call
whose request carries real prices `dex_price = 1.00`,
`cex_price = 1.02` (both strictly positive) computes its PnL by the
edge-bps-only fallback (result: 6 USDT), because `execute` invokes
`executePaper(trade)` without forwarding `params`; had the params been
forwarded, `executePaper`'s real-price branch would have produced
28953/2002 ≈ 14.46 USDT. -/
theorem paper_pnl_ignores_real_prices :
    (execute cfgPaper s0 pEx "t1" 0).1.pnl_usdt = some 6 ∧
    (executePaper s0 tradeEx (some pEx) 0).1.pnl_usdt = some (28953 / 2002) ∧
    (6 : ℚ) ≠ 28953 / 2002 := by
  refine ⟨?_, ?_, by norm_num⟩
  · norm_num [execute, executePaper, checkIdempotencyKey, insertTrade,
      updateTradeStatus, removeActive, cfgPaper, s0, pEx]
  · norm_num [executePaper, tradeEx, pEx, updateTradeStatus, removeActive, s0]

/-- C7: `interpolateQuoteLadder` — with zero valid entries the result is
`(0, false)`; when the first adjacent pair of the valid, stably
size-sorted ladder brackets the target (in either price direction) the
result is the interpolated size with `achievable = true`, and that size
is the finite linear interpolation whenever the pair's execution prices
differ (for an equal-price bracketing pair the JS arithmetic yields
`NaN`); when `firstBracket` is `none`, NO adjacent pair brackets the
target and the result is the size of the endpoint whose price is
nearest the target with `achievable = false`. -/
theorem interpolateQuoteLadder_spec :
    ∀ (ladder : List QuoteLadderEntry) (targetPrice : ℚ),
      (sortBySize (ladder.filter fun e => e.valid) = [] →
        interpolateQuoteLadder ladder targetPrice = (JVal.fin 0, false)) ∧
      (∀ lower upper,
        firstBracket (sortBySize (ladder.filter fun e => e.valid)) targetPrice =
          some (lower, upper) →
        brackets lower upper targetPrice ∧
        interpolateQuoteLadder ladder targetPrice =
          (interpPair lower upper targetPrice, true) ∧
        (lower.price_usdt_per_token ≠ upper.price_usdt_per_token →
          interpPair lower upper targetPrice =
            JVal.fin (max 0 (lower.amountInUSDT +
              (targetPrice - lower.price_usdt_per_token) /
                (upper.price_usdt_per_token - lower.price_usdt_per_token) *
                (upper.amountInUSDT - lower.amountInUSDT)))) ∧
        (lower.price_usdt_per_token = upper.price_usdt_per_token →
          interpPair lower upper targetPrice = JVal.nan)) ∧
      (firstBracket (sortBySize (ladder.filter fun e => e.valid)) targetPrice = none →
        ∀ i, (hi : i + 1 < (sortBySize (ladder.filter fun e => e.valid)).length) →
          ¬ brackets
            ((sortBySize (ladder.filter fun e => e.valid)).get ⟨i, Nat.lt_of_succ_lt hi⟩)
            ((sortBySize (ladder.filter fun e => e.valid)).get ⟨i + 1, hi⟩)
            targetPrice) ∧
      (∀ a rest, sortBySize (ladder.filter fun e => e.valid) = a :: rest →
        firstBracket (sortBySize (ladder.filter fun e => e.valid)) targetPrice = none →
        interpolateQuoteLadder ladder targetPrice =
          (JVal.fin
            (if |a.price_usdt_per_token - targetPrice| <
                |((a :: rest).getLast (List.cons_ne_nil a rest)).price_usdt_per_token -
                  targetPrice|
             then a.amountInUSDT
             else ((a :: rest).getLast (List.cons_ne_nil a rest)).amountInUSDT),
           false)) := by
  intro ladder targetPrice
  refine ⟨?_, ?_, ?_, ?_⟩
  · intro h
    simp [interpolateQuoteLadder, h]
  · intro lower upper h
    refine ⟨firstBracket_some _ _ _ _ h, ?_, ?_, ?_⟩
    · cases hv : sortBySize (ladder.filter fun e => e.valid) with
      | nil =>
        rw [hv] at h
        simp [firstBracket] at h
      | cons a rest =>
        rw [hv] at h
        simp [interpolateQuoteLadder, hv, h]
    · intro hne
      have hd : upper.price_usdt_per_token - lower.price_usdt_per_token ≠ 0 :=
        sub_ne_zero.mpr (Ne.symm hne)
      simp [interpPair, jsDiv, hd, jmul, jadd, jmaxV]
    · intro heq
      have hbr := firstBracket_some _ _ _ _ h
      have ht : targetPrice = lower.price_usdt_per_token := by
        rcases hbr with ⟨h1, h2⟩ | ⟨h1, h2⟩
        · exact le_antisymm (heq ▸ h2) h1
        · exact le_antisymm h2 (heq ▸ h1)
      simp [interpPair, jsDiv, heq, ht, jmul, jadd, jmaxV]
  · intro h i hi
    exact firstBracket_none_pairs _ _ h i hi
  · intro a rest hv h
    rw [hv] at h
    simp only [interpolateQuoteLadder, hv, h]
    split_ifs <;> rfl

/-- C7 witness: for ladder `[(100, 1.00), (200, 1.02)]` and target
`1.01` the first adjacent pair brackets the target and the result is
`(150, achievable = true)`. -/
theorem interpolateQuoteLadder_spec_witness :
    interpolateQuoteLadder exLadder (101 / 100) = (JVal.fin 150, true) := by
  obtain ⟨-, h2, -, -⟩ := interpolateQuoteLadder_spec exLadder (101 / 100)
  have hfb : firstBracket (sortBySize (exLadder.filter fun e => e.valid)) (101 / 100) =
      some (exEntry1, exEntry2) := by
    norm_num [exLadder, exEntry1, exEntry2, sortBySize, insertBySize, firstBracket, brackets]
  obtain ⟨-, heq, hfin, -⟩ := h2 exEntry1 exEntry2 hfb
  rw [heq, hfin (by norm_num [exEntry1, exEntry2])]
  norm_num [exEntry1, exEntry2]

/-- C5: `computeSuggestion` evaluates its decision tree in source
order: (1) a neutral band returns no-trade with the neutral-band reason
and `blocked = false` regardless of cooldown; (2) otherwise an active
cooldown returns no-trade with `blocked = true` and
`blockReason = "cooldown"` (so a cooldown blocks even a hard-band
deviation); (3) otherwise direction follows the sign of the deviation,
`targetPrice` is `cexPrice` offset by the alignment margin toward
narrowing the gap, and the size is interpolated from the ladder and
clamped to `maxTradeSizeUsdt`; (4) a net benefit below `minBenefitBps`
returns `shouldTrade = false` with the numeric shortfall; (5) a soft
band returns `shouldTrade = false` with direction/size populated;
(6) a hard band returns `shouldTrade = true`. -/
theorem computeSuggestion_decision_tree :
    ∀ (prices : PriceComparison) (quoteLadder : List QuoteLadderEntry)
      (gasUsdt : Option ℚ) (config : AlignmentConfig) (cooldown : CooldownState),
      (prices.bandStatus = Band.neutral →
        (computeSuggestion prices quoteLadder gasUsdt config cooldown).shouldTrade = false ∧
        (computeSuggestion prices quoteLadder gasUsdt config cooldown).reason =
          SuggestReason.withinNeutralBand ∧
        (computeSuggestion prices quoteLadder gasUsdt config cooldown).blocked = false) ∧
      (prices.bandStatus ≠ Band.neutral → cooldown.inCooldown = true →
        (computeSuggestion prices quoteLadder gasUsdt config cooldown).shouldTrade = false ∧
        (computeSuggestion prices quoteLadder gasUsdt config cooldown).blocked = true ∧
        (computeSuggestion prices quoteLadder gasUsdt config cooldown).blockReason =
          some "cooldown" ∧
        (computeSuggestion prices quoteLadder gasUsdt config cooldown).reason =
          SuggestReason.inCooldown cooldown.cooldownRemaining) ∧
      (prices.bandStatus ≠ Band.neutral → cooldown.inCooldown = false →
        (computeSuggestion prices quoteLadder gasUsdt config cooldown).direction =
          (if 0 < prices.deviationPercent then AlignDir.sell_dex else AlignDir.buy_dex) ∧
        (computeSuggestion prices quoteLadder gasUsdt config cooldown).targetPrice =
          prices.cexPrice *
            (if 0 < prices.deviationPercent then 1 + config.bands.alignmentMargin / 100
             else 1 - config.bands.alignmentMargin / 100) ∧
        (computeSuggestion prices quoteLadder gasUsdt config cooldown).suggestedSizeUsdt =
          jminV
            (interpolateQuoteLadder quoteLadder
              (prices.cexPrice *
                (if 0 < prices.deviationPercent then 1 + config.bands.alignmentMargin / 100
                 else 1 - config.bands.alignmentMargin / 100))).1
            (JVal.fin config.maxTradeSizeUsdt)) ∧
      (prices.bandStatus ≠ Band.neutral → cooldown.inCooldown = false →
        jltB (computeSuggestion prices quoteLadder gasUsdt config cooldown).benefit.netBenefitBps
          (JVal.fin config.minBenefitBps) = true →
        (computeSuggestion prices quoteLadder gasUsdt config cooldown).shouldTrade = false ∧
        (computeSuggestion prices quoteLadder gasUsdt config cooldown).reason =
          SuggestReason.uneconomical
            (computeSuggestion prices quoteLadder gasUsdt config cooldown).benefit.netBenefitBps
            config.minBenefitBps) ∧
      (prices.bandStatus ≠ Band.neutral → cooldown.inCooldown = false →
        jltB (computeSuggestion prices quoteLadder gasUsdt config cooldown).benefit.netBenefitBps
          (JVal.fin config.minBenefitBps) = false →
        prices.bandStatus = Band.soft →
        (computeSuggestion prices quoteLadder gasUsdt config cooldown).shouldTrade = false ∧
        (computeSuggestion prices quoteLadder gasUsdt config cooldown).reason =
          SuggestReason.softOptional
            (computeSuggestion prices quoteLadder gasUsdt config cooldown).direction
            (computeSuggestion prices quoteLadder gasUsdt config cooldown).suggestedSizeUsdt ∧
        (computeSuggestion prices quoteLadder gasUsdt config cooldown).blocked = false) ∧
      (prices.bandStatus ≠ Band.neutral → cooldown.inCooldown = false →
        jltB (computeSuggestion prices quoteLadder gasUsdt config cooldown).benefit.netBenefitBps
          (JVal.fin config.minBenefitBps) = false →
        prices.bandStatus = Band.hard →
        (computeSuggestion prices quoteLadder gasUsdt config cooldown).shouldTrade = true) := by
  intro prices quoteLadder gasUsdt config cooldown
  refine ⟨?_, ?_, ?_, ?_, ?_, ?_⟩
  · intro h
    refine ⟨?_, ?_, ?_⟩ <;> simp [computeSuggestion, h]
  · intro h1 h2
    refine ⟨?_, ?_, ?_, ?_⟩ <;> simp [computeSuggestion, h1, h2]
  · intro h1 h2
    by_cases hdev : 0 < prices.deviationPercent <;>
      refine ⟨?_, ?_, ?_⟩ <;>
        simp [computeSuggestion, h1, h2, hdev] <;>
          (try split_ifs) <;> rfl
  · intro h1 h2
    simp only [computeSuggestion, h1, h2, Bool.false_eq_true, if_false, ite_false, if_neg h1]
    split_ifs <;> intro hlt <;>
      first
        | exact ⟨rfl, rfl⟩
        | exact absurd hlt (by assumption)
  · intro h1 h2 h5 h6
    revert h5
    have hsn : (Band.soft = Band.neutral) = False := by simp
    have hss : (Band.soft = Band.soft) = True := by simp
    simp only [computeSuggestion, h2, h6, hsn, hss, Bool.false_eq_true, if_false, ite_false,
      if_true, ite_true]
    split_ifs <;> intro h5 <;>
      first
        | exact ⟨rfl, rfl, rfl⟩
        | simp_all
  · intro h1 h2 h5 h6
    revert h5
    have hhn : (Band.hard = Band.neutral) = False := by simp
    have hhs : (Band.hard = Band.soft) = False := by simp
    simp only [computeSuggestion, h2, h6, hhn, hhs, Bool.false_eq_true, if_false, ite_false,
      if_true, ite_true]
    split_ifs <;> intro h5 <;>
      first
        | rfl
        | simp_all

/-- C5 witness: a hard-band price comparison during an active cooldown
is blocked with `blockReason = "cooldown"` and no trade. -/
theorem computeSuggestion_decision_tree_witness :
    (computeSuggestion exPrices exLadder Option.none exAlignConfig exCooldownOn).shouldTrade =
      false ∧
    (computeSuggestion exPrices exLadder Option.none exAlignConfig exCooldownOn).blocked =
      true ∧
    (computeSuggestion exPrices exLadder Option.none exAlignConfig exCooldownOn).blockReason =
      some "cooldown" := by
  have h := (computeSuggestion_decision_tree exPrices exLadder Option.none exAlignConfig
    exCooldownOn).2.1 (by simp [exPrices]) rfl
  exact ⟨h.1, h.2.1, h.2.2.1⟩

end CsrArb
